import Mathlib

/-!
Verification of the RadiantWave updater script
(`system/usr/local/bin/radiantwave-updater.py`).

The script is a straight-line orchestrator over external subprocesses.  We
embed it shallowly: each external interaction is represented by an explicit
outcome value (exit code, timeout, other exception, parsed payload), and each
Python function becomes a Lean function from those outcomes to the value the
Python function returns.  `main` additionally returns the ordered trace of
tracked invocations (privileged `pkexec` calls, the login call, the upgrade
query), so that claims of the form "X is never invoked" become membership
statements about the trace.
-/

namespace RadiantWave

/-- Outcome of the TCP connectivity probe inside `check_network`: either
`socket.create_connection` succeeds, or it raises `OSError` (timeouts
included, since `socket.timeout` is an `OSError`). -/
inductive NetProbe where
  | connected
  | osError
deriving DecidableEq

/-- `check_network`: returns `True` on a successful connection; the `OSError`
handler returns `False`. -/
def check_network : NetProbe → Bool
  | .connected => true
  | .osError => false

/-- Outcome of the `subprocess.run` call inside `run_command` (which always
passes `timeout=300`): the process exits with a return code, the call raises
`subprocess.TimeoutExpired`, or it raises some other exception. -/
inductive RCOutcome where
  | exited (code : Nat)
  | timedOut
  | raised
deriving DecidableEq

/-- `run_command`: returns `True` iff the process ran and exited 0; a timeout
or any other exception is caught and yields `False`. -/
def run_command : RCOutcome → Bool
  | .exited code => code == 0
  | .timedOut => false
  | .raised => false

/-- Outcome of the `tailscale version` query inside `is_tailscale_installed`.
The call passes `check=True` and NO `timeout` argument, so the only handled
outcomes are success, `FileNotFoundError` (binary absent) and
`subprocess.CalledProcessError` (non-zero exit); a timeout cannot occur
because none is set. -/
inductive VersionProbe where
  | ok (version : String)
  | binaryNotFound
  | nonZeroExit
deriving DecidableEq

/-- `is_tailscale_installed`: `True` only when the version query succeeds. -/
def is_tailscale_installed : VersionProbe → Bool
  | .ok _ => true
  | .binaryNotFound => false
  | .nonZeroExit => false

/-- Outcome of the installation subprocess inside `install_tailscale`
(`timeout=120`). -/
inductive InstallOutcome where
  | exited (code : Nat)
  | timedOut
deriving DecidableEq

/-- `install_tailscale`: `True` iff the install command exited 0; a timeout is
caught and yields `False`. -/
def install_tailscale : InstallOutcome → Bool
  | .exited code => code == 0
  | .timedOut => false

/-- Outcome of the operator-grant subprocess inside `set_tailscale_operator`
(`timeout=30`; the handler catches every `Exception`, which includes
`subprocess.TimeoutExpired`). -/
inductive OpOutcome where
  | exited (code : Nat)
  | timedOut
  | raised
deriving DecidableEq

/-- `set_tailscale_operator`: `True` iff exit code 0; timeouts and all other
exceptions yield `False`. -/
def set_tailscale_operator : OpOutcome → Bool
  | .exited code => code == 0
  | .timedOut => false
  | .raised => false

/-- The fields of the parsed `tailscale status --json` payload that the
script reads for decisions: `BackendState` and `Self.HostName` (which the
JSON may omit, hence optional). -/
structure TSStatus where
  backendState : String
  selfHostName : Option String
deriving DecidableEq

/-- Outcome of the `tailscale status --json` query inside
`get_tailscale_status` (`timeout=10`): exit 0 with a parsed payload, non-zero
exit, JSON decode error, timeout, or another exception. -/
inductive StatusOutcome where
  | exitedZero (status : TSStatus)
  | exitedNonZero
  | badJson
  | timedOut
  | raised
deriving DecidableEq

/-- `get_tailscale_status`: returns the parsed status on a clean exit and
`None` in every other case (non-zero exit, bad JSON, timeout, exception). -/
def get_tailscale_status : StatusOutcome → Option TSStatus
  | .exitedZero st => some st
  | .exitedNonZero => none
  | .badJson => none
  | .timedOut => none
  | .raised => none

/-- `is_tailscale_logged_in`: with no status available returns `False`;
otherwise `True` iff `BackendState` equals the sentinel `"Running"`. -/
def is_tailscale_logged_in : Option TSStatus → Bool
  | none => false
  | some st => st.backendState == "Running"

/-- Outcome of the `tailscale up` subprocess inside `tailscale_login`
(`timeout=30`; separate handlers catch `TimeoutExpired` and `Exception`). -/
inductive LoginOutcome where
  | exited (code : Nat)
  | timedOut
  | raised
deriving DecidableEq

/-- `tailscale_login`: `True` iff exit code 0; timeouts and other exceptions
yield `False`. -/
def tailscale_login : LoginOutcome → Bool
  | .exited code => code == 0
  | .timedOut => false
  | .raised => false

/-- `get_current_tailscale_hostname`: `None` when no status is available,
else the `Self.HostName` field (itself possibly missing). -/
def get_current_tailscale_hostname : Option TSStatus → Option String
  | none => none
  | some st => st.selfHostName

/-- State of the sqlite identity store as seen by `get_license_key`: the
database file is missing, the sqlite layer raises `sqlite3.Error`, or the
point query completes and yields a row value.  `table none` covers both a
missing row and a NULL value (both falsy in the Python `if row and row[0]`
test); an empty stored string is `table (some "")`. -/
inductive DBState where
  | fileMissing
  | sqliteError
  | table (row : Option String)
deriving DecidableEq

/-- `get_license_key`: `None` when the file is missing, when sqlite raises,
when no row is found, and when the stored value is empty; otherwise the
stored value. -/
def get_license_key : DBState → Option String
  | .fileMissing => none
  | .sqliteError => none
  | .table none => none
  | .table (some v) => if v = "" then none else some v

/-- The templated package name constant from the script head. -/
def PACKAGE_NAME : String := "__CHANNEL__"

/-- Outcome of the `apt list --upgradable` subprocess inside
`check_for_upgrade` (`timeout=30`; the single handler catches every
`Exception`, including `TimeoutExpired`).  When the process completes, both
its exit code and its stdout text are available to the function. -/
inductive UpgOutcome where
  | completed (code : Nat) (stdout : String)
  | timedOut
  | raised
deriving DecidableEq

/-- Literal substring containment, the semantics of the Python expression
`PACKAGE_NAME in result.stdout`. -/
def strContains (hay needle : String) : Bool :=
  decide (needle.data <:+: hay.data)

/-- `check_for_upgrade`: when the query completes, tests literal substring
containment of `PACKAGE_NAME` in the stdout text, ignoring the exit code;
any exception (timeout included) yields `False`. -/
def check_for_upgrade : UpgOutcome → Bool
  | .completed _ out => strContains out PACKAGE_NAME
  | .timedOut => false
  | .raised => false

/-- The tracked invocations a run can perform, in source order.  The five
`pkexec`-wrapped (privileged) calls are distinguished from the unprivileged
`tailscale up` login and the unprivileged upgrade query. -/
inductive Event where
  | pkexecInstallTailscale
  | pkexecSetOperator
  | tailscaleUp (hostname : Option String)
  | pkexecAptUpdate
  | checkForUpgrade
  | pkexecAptInstallUpgrade
  | pkexecRestartGetty
deriving DecidableEq

/-- Whether a tracked invocation is routed through `pkexec` (privileged). -/
def Event.isPrivileged : Event → Bool
  | .pkexecInstallTailscale => true
  | .pkexecSetOperator => true
  | .tailscaleUp _ => false
  | .pkexecAptUpdate => true
  | .checkForUpgrade => false
  | .pkexecAptInstallUpgrade => true
  | .pkexecRestartGetty => true

/-- The external-world outcomes one run of `main` observes, one field per
subprocess interaction in source order.  Repeated queries (e.g. the second
`is_tailscale_installed` probe after installing, or the separate status and
database reads done by `ensure_tailscale_connected` and
`sync_tailscale_hostname`) get separate fields, since the world may change
between them. -/
structure MainEnv where
  netProbe : NetProbe
  versionProbe1 : VersionProbe
  installOutcome : InstallOutcome
  versionProbe2 : VersionProbe
  operatorOutcome : OpOutcome
  statusConn : StatusOutcome
  dbConn : DBState
  loginConn : LoginOutcome
  statusConnRetry : StatusOutcome
  dbSync : DBState
  statusSync : StatusOutcome
  aptUpdate : RCOutcome
  upgradeQuery : UpgOutcome
  aptInstall : RCOutcome
  restartGetty : RCOutcome
deriving DecidableEq

/-- `ensure_tailscale_installed`: no-op when already installed; otherwise
install (a privileged call), re-verify, and attempt the operator grant,
whose failure is logged but does not change the returned value.  Returns the
boolean result together with the invocations performed. -/
def ensure_tailscale_installed (env : MainEnv) : Bool × List Event :=
  if is_tailscale_installed env.versionProbe1 then (true, [])
  else if install_tailscale env.installOutcome = false then
    (false, [.pkexecInstallTailscale])
  else if is_tailscale_installed env.versionProbe2 = false then
    (false, [.pkexecInstallTailscale])
  else if set_tailscale_operator env.operatorOutcome = false then
    (true, [.pkexecInstallTailscale, .pkexecSetOperator])
  else
    (true, [.pkexecInstallTailscale, .pkexecSetOperator])

/-- `ensure_tailscale_connected`: no-op when already logged in; otherwise
reads the license key, logs in with it as the hostname argument, and
re-checks the status.  The login subprocess is not privileged. -/
def ensure_tailscale_connected (env : MainEnv) : Bool × List Event :=
  if is_tailscale_logged_in (get_tailscale_status env.statusConn) then (true, [])
  else if tailscale_login env.loginConn = false then
    (false, [.tailscaleUp (get_license_key env.dbConn)])
  else if is_tailscale_logged_in (get_tailscale_status env.statusConnRetry) = false then
    (false, [.tailscaleUp (get_license_key env.dbConn)])
  else
    (true, [.tailscaleUp (get_license_key env.dbConn)])

/-- `sync_tailscale_hostname`: returns the login invocations it performs.
With no license key, or with the currently advertised hostname already equal
to the key, it performs none; otherwise it re-invokes the login with the key
as hostname (the post-login verification query only logs, so it is not
modelled). -/
def sync_tailscale_hostname (db : DBState) (statusQ : StatusOutcome) : List Event :=
  match get_license_key db with
  | none => []
  | some key =>
    if get_current_tailscale_hostname (get_tailscale_status statusQ) = some key then []
    else [.tailscaleUp (some key)]

/-- The best-effort overlay-network phase of `main` (lines 472 to 481): the
install step, then on success the connect step, then on success the hostname
sync.  Failures here only produce log lines; only the trace is returned. -/
def overlayTrace (env : MainEnv) : List Event :=
  let inst := ensure_tailscale_installed env
  if inst.1 = false then inst.2
  else
    let conn := ensure_tailscale_connected env
    if conn.1 = false then inst.2 ++ conn.2
    else inst.2 ++ conn.2 ++ sync_tailscale_hostname env.dbSync env.statusSync

/-- `main`: the full run.  Returns the process exit code together with the
ordered trace of tracked invocations.  Control flow mirrors the source: the
connectivity gate returns 0 immediately; the overlay phase never affects the
exit code; `apt update` failure returns 1; no available upgrade returns 0;
`apt install` failure returns 1; restart failure returns 1; otherwise 0. -/
def main (env : MainEnv) : Nat × List Event :=
  if check_network env.netProbe = false then (0, [])
  else
    let ev1 := overlayTrace env ++ [.pkexecAptUpdate]
    if run_command env.aptUpdate = false then (1, ev1)
    else
      let ev2 := ev1 ++ [.checkForUpgrade]
      if check_for_upgrade env.upgradeQuery = false then (0, ev2)
      else
        let ev3 := ev2 ++ [.pkexecAptInstallUpgrade]
        if run_command env.aptInstall = false then (1, ev3)
        else
          let ev4 := ev3 ++ [.pkexecRestartGetty]
          if run_command env.restartGetty = false then (1, ev4)
          else (0, ev4)

/-- Two consecutive invocations of `sync_tailscale_hostname` against an
unchanged store state and an unchanged remote status: the pair of login
traces of the first and the second invocation. -/
def syncTwice (db : DBState) (statusQ : StatusOutcome) : List Event × List Event :=
  (sync_tailscale_hostname db statusQ, sync_tailscale_hostname db statusQ)

/-- The seven `subprocess.run` call sites of the script and the `timeout`
argument each one passes, in source order. -/
structure Invocation where
  callsite : String
  timeoutSeconds : Option Nat
deriving DecidableEq

/-- The complete list of external-process invocations in the script.  Only
the `tailscale version` probe in `is_tailscale_installed` passes no timeout
(it uses `check=True` instead). -/
def processInvocations : List Invocation :=
  [ ⟨"run_command", some 300⟩,
    ⟨"is_tailscale_installed:tailscale-version", none⟩,
    ⟨"install_tailscale", some 120⟩,
    ⟨"set_tailscale_operator", some 30⟩,
    ⟨"get_tailscale_status", some 10⟩,
    ⟨"tailscale_login", some 30⟩,
    ⟨"check_for_upgrade:apt-list-upgradable", some 30⟩ ]

/-- Every invocation recorded by `ensure_tailscale_installed` is one of the
two privileged overlay calls. -/
lemma mem_ensure_installed (env : MainEnv) (ev : Event)
    (h : ev ∈ (ensure_tailscale_installed env).2) :
    ev = .pkexecInstallTailscale ∨ ev = .pkexecSetOperator := by
  unfold ensure_tailscale_installed at h
  repeat' split at h
  all_goals simp_all

/-- Every invocation recorded by `ensure_tailscale_connected` is the login
call. -/
lemma mem_ensure_connected (env : MainEnv) (ev : Event)
    (h : ev ∈ (ensure_tailscale_connected env).2) :
    ev = .tailscaleUp (get_license_key env.dbConn) := by
  unfold ensure_tailscale_connected at h
  repeat' split at h
  all_goals simp_all

/-- Every invocation recorded by `sync_tailscale_hostname` is a login call
with some concrete hostname. -/
lemma mem_sync (db : DBState) (statusQ : StatusOutcome) (ev : Event)
    (h : ev ∈ sync_tailscale_hostname db statusQ) :
    ∃ k, ev = .tailscaleUp (some k) := by
  unfold sync_tailscale_hostname at h
  split at h <;> simp_all

/-- Every invocation of the overlay-network phase is an overlay install, an
operator grant, or a login: in particular neither the upgrade check nor any
apt call occurs there. -/
lemma mem_overlayTrace (env : MainEnv) (ev : Event) (h : ev ∈ overlayTrace env) :
    ev = .pkexecInstallTailscale ∨ ev = .pkexecSetOperator ∨
      ∃ hn, ev = .tailscaleUp hn := by
  simp only [overlayTrace] at h
  split at h
  · rcases mem_ensure_installed env ev h with h1 | h1 <;> simp [h1]
  · split at h
    · rcases List.mem_append.mp h with h1 | h1
      · rcases mem_ensure_installed env ev h1 with h2 | h2 <;> simp [h2]
      · exact Or.inr (Or.inr ⟨_, mem_ensure_connected env ev h1⟩)
    · rcases List.mem_append.mp h with h1 | h1
      · rcases List.mem_append.mp h1 with h2 | h2
        · rcases mem_ensure_installed env ev h2 with h3 | h3 <;> simp [h3]
        · exact Or.inr (Or.inr ⟨_, mem_ensure_connected env ev h2⟩)
      · rcases mem_sync env.dbSync env.statusSync ev h1 with ⟨k, h2⟩
        exact Or.inr (Or.inr ⟨some k, h2⟩)

/-- C6: `get_license_key` returns `none` in all four degraded cases: store
file missing, sqlite error raised, row missing (or NULL), and stored value
empty.  The function is total, so no error ever reaches the caller. -/
theorem C6_identity_absent_uniform :
    get_license_key .fileMissing = none ∧
    get_license_key (.table none) = none ∧
    get_license_key (.table (some "")) = none ∧
    get_license_key .sqliteError = none := by
  decide

/-- C4 counterexample: not every external-process invocation carries an
explicit timeout — the `tailscale version` probe in
`is_tailscale_installed` passes none. -/
theorem C4_counterexample :
    processInvocations.all (fun i => i.timeoutSeconds.isSome) = false := by
  decide

/-- C4 amended: every external-process invocation except the
`tailscale version` probe carries an explicit timeout, and for each of those
a timeout is caught and treated as failure — the same result as a non-zero
exit (with empty output, in the case of the upgrade query whose result also
reads stdout). -/
theorem C4_amended :
    (processInvocations.filter (fun i => i.timeoutSeconds.isNone)).map
        Invocation.callsite = ["is_tailscale_installed:tailscale-version"] ∧
    run_command .timedOut = false ∧
    run_command .timedOut = run_command (.exited 1) ∧
    install_tailscale .timedOut = false ∧
    install_tailscale .timedOut = install_tailscale (.exited 1) ∧
    set_tailscale_operator .timedOut = false ∧
    set_tailscale_operator .timedOut = set_tailscale_operator (.exited 1) ∧
    get_tailscale_status .timedOut = none ∧
    get_tailscale_status .timedOut = get_tailscale_status .exitedNonZero ∧
    tailscale_login .timedOut = false ∧
    tailscale_login .timedOut = tailscale_login (.exited 1) ∧
    check_for_upgrade .timedOut = false ∧
    check_for_upgrade .timedOut = check_for_upgrade (.completed 1 "") := by
  decide

/-- C8: `check_for_upgrade` returns `true` on a completed query exactly when
the package name occurs as a literal substring of the listing text,
whatever the exit code — the semantics of the Python substring test. -/
theorem C8_substring_semantics (code : Nat) (out : String) :
    check_for_upgrade (.completed code out) = true ↔
      PACKAGE_NAME.data <:+: out.data := by
  simp [check_for_upgrade, strContains]

/-- Concrete environment for claim C9: client absent, install succeeds,
re-verification succeeds, operator grant exits non-zero. -/
def envC9 : MainEnv where
  netProbe := .connected
  versionProbe1 := .binaryNotFound
  installOutcome := .exited 0
  versionProbe2 := .ok "1.60.0"
  operatorOutcome := .exited 1
  statusConn := .exitedZero ⟨"Running", some "kiosk-1"⟩
  dbConn := .table (some "kiosk-1")
  loginConn := .exited 0
  statusConnRetry := .exitedZero ⟨"Running", some "kiosk-1"⟩
  dbSync := .table (some "kiosk-1")
  statusSync := .exitedZero ⟨"Running", some "kiosk-1"⟩
  aptUpdate := .exited 0
  upgradeQuery := .completed 0 ""
  aptInstall := .exited 0
  restartGetty := .exited 0

/-- C9: when the overlay client is initially absent, installation succeeds
and re-verification succeeds, a failing operator grant still leaves
`ensure_tailscale_installed` returning `true`. -/
theorem C9_operator_grant_soft (env : MainEnv)
    (h0 : is_tailscale_installed env.versionProbe1 = false)
    (h1 : install_tailscale env.installOutcome = true)
    (h2 : is_tailscale_installed env.versionProbe2 = true)
    (h3 : set_tailscale_operator env.operatorOutcome = false) :
    (ensure_tailscale_installed env).1 = true := by
  simp [ensure_tailscale_installed, h0, h1, h2, h3]

/-- C9 witness: the scenario instantiated at `envC9`. -/
theorem C9_witness :
    is_tailscale_installed envC9.versionProbe1 = false ∧
    install_tailscale envC9.installOutcome = true ∧
    is_tailscale_installed envC9.versionProbe2 = true ∧
    set_tailscale_operator envC9.operatorOutcome = false ∧
    (ensure_tailscale_installed envC9).1 = true :=
  ⟨rfl, rfl, rfl, rfl,
    C9_operator_grant_soft envC9 rfl rfl rfl rfl⟩

/-- Concrete environment for claim C1: network up, overlay phase healthy,
index refresh, upgrade check and install all succeed, getty restart exits
non-zero. -/
def envC1 : MainEnv where
  netProbe := .connected
  versionProbe1 := .ok "1.60.0"
  installOutcome := .exited 0
  versionProbe2 := .ok "1.60.0"
  operatorOutcome := .exited 0
  statusConn := .exitedZero ⟨"Running", some "kiosk-1"⟩
  dbConn := .table (some "kiosk-1")
  loginConn := .exited 0
  statusConnRetry := .exitedZero ⟨"Running", some "kiosk-1"⟩
  dbSync := .table (some "kiosk-1")
  statusSync := .exitedZero ⟨"Running", some "kiosk-1"⟩
  aptUpdate := .exited 0
  upgradeQuery := .completed 0 "__CHANNEL__/stable 2.0 amd64 [upgradable from: 1.0]"
  aptInstall := .exited 0
  restartGetty := .exited 1

/-- C1 counterexample: with the connectivity gate passed and index refresh,
upgrade check and install all succeeding, a failing getty restart makes the
run exit 1, not 0 — the restart failure is not soft. -/
theorem C1_counterexample :
    check_network envC1.netProbe = true ∧
    run_command envC1.aptUpdate = true ∧
    check_for_upgrade envC1.upgradeQuery = true ∧
    run_command envC1.aptInstall = true ∧
    run_command envC1.restartGetty = false ∧
    (main envC1).1 = 1 := by
  decide

/-- C1 amended: in any run where the connectivity gate passes and index
refresh, upgrade check and install all succeed, a failure of the getty
restart flips the run outcome to failure: the process exits 1 (the failure
is also logged). -/
theorem C1_amended (env : MainEnv)
    (hnet : check_network env.netProbe = true)
    (hupd : run_command env.aptUpdate = true)
    (hchk : check_for_upgrade env.upgradeQuery = true)
    (hins : run_command env.aptInstall = true)
    (hres : run_command env.restartGetty = false) :
    (main env).1 = 1 := by
  simp [main, hnet, hupd, hchk, hins, hres]

/-- C1 witness: the amended claim instantiated at `envC1`. -/
theorem C1_witness :
    check_network envC1.netProbe = true ∧
    run_command envC1.aptUpdate = true ∧
    check_for_upgrade envC1.upgradeQuery = true ∧
    run_command envC1.aptInstall = true ∧
    run_command envC1.restartGetty = false ∧
    (main envC1).1 = 1 :=
  ⟨rfl, rfl, by decide, rfl, rfl,
    C1_amended envC1 rfl rfl (by decide) rfl rfl⟩

/-- Concrete environment for claim C2: the connectivity probe raises
`OSError`; later outcomes are arbitrary. -/
def envC2 : MainEnv where
  netProbe := .osError
  versionProbe1 := .ok "1.60.0"
  installOutcome := .exited 0
  versionProbe2 := .ok "1.60.0"
  operatorOutcome := .exited 0
  statusConn := .exitedZero ⟨"Running", some "kiosk-1"⟩
  dbConn := .table (some "kiosk-1")
  loginConn := .exited 0
  statusConnRetry := .exitedZero ⟨"Running", some "kiosk-1"⟩
  dbSync := .table (some "kiosk-1")
  statusSync := .exitedZero ⟨"Running", some "kiosk-1"⟩
  aptUpdate := .exited 0
  upgradeQuery := .completed 0 ""
  aptInstall := .exited 0
  restartGetty := .exited 0

/-- C2: when the connectivity probe returns `false`, the run ends at once
with exit code 0 and an empty invocation trace — in particular no privileged
invocation is ever performed. -/
theorem C2_no_network_noop (env : MainEnv)
    (h : check_network env.netProbe = false) :
    main env = (0, []) ∧
      ∀ ev ∈ (main env).2, ev.isPrivileged = false := by
  constructor
  · simp [main, h]
  · intro ev hev
    simp [main, h] at hev

/-- C2 witness: instantiated at `envC2`. -/
theorem C2_witness :
    check_network envC2.netProbe = false ∧
    (main envC2 = (0, []) ∧
      ∀ ev ∈ (main envC2).2, ev.isPrivileged = false) :=
  ⟨rfl, C2_no_network_noop envC2 rfl⟩

/-- Concrete environment for claim C3: network up, `apt update` exits
non-zero. -/
def envC3 : MainEnv where
  netProbe := .connected
  versionProbe1 := .ok "1.60.0"
  installOutcome := .exited 0
  versionProbe2 := .ok "1.60.0"
  operatorOutcome := .exited 0
  statusConn := .exitedZero ⟨"Running", some "kiosk-1"⟩
  dbConn := .table (some "kiosk-1")
  loginConn := .exited 0
  statusConnRetry := .exitedZero ⟨"Running", some "kiosk-1"⟩
  dbSync := .table (some "kiosk-1")
  statusSync := .exitedZero ⟨"Running", some "kiosk-1"⟩
  aptUpdate := .exited 100
  upgradeQuery := .completed 0 ""
  aptInstall := .exited 0
  restartGetty := .exited 0

/-- C3: when the index refresh fails (non-zero exit or timeout, i.e.
`run_command` returns `false`), the run exits 1 and the upgrade check is
never invoked. -/
theorem C3_refresh_failure_fatal (env : MainEnv)
    (hnet : check_network env.netProbe = true)
    (hupd : run_command env.aptUpdate = false) :
    (main env).1 = 1 ∧ Event.checkForUpgrade ∉ (main env).2 := by
  refine ⟨by simp [main, hnet, hupd], ?_⟩
  intro hmem
  simp only [main, hnet, hupd] at hmem
  simp at hmem
  rcases mem_overlayTrace env _ hmem with h1 | h1 | ⟨hn, h1⟩ <;> simp_all

/-- C3 witness: instantiated at `envC3`. -/
theorem C3_witness :
    check_network envC3.netProbe = true ∧
    run_command envC3.aptUpdate = false ∧
    ((main envC3).1 = 1 ∧ Event.checkForUpgrade ∉ (main envC3).2) :=
  ⟨rfl, rfl, C3_refresh_failure_fatal envC3 rfl rfl⟩

/-- Concrete environment for claim C5: network up, refresh succeeds, the
upgradable listing does not mention the package. -/
def envC5 : MainEnv where
  netProbe := .connected
  versionProbe1 := .ok "1.60.0"
  installOutcome := .exited 0
  versionProbe2 := .ok "1.60.0"
  operatorOutcome := .exited 0
  statusConn := .exitedZero ⟨"Running", some "kiosk-1"⟩
  dbConn := .table (some "kiosk-1")
  loginConn := .exited 0
  statusConnRetry := .exitedZero ⟨"Running", some "kiosk-1"⟩
  dbSync := .table (some "kiosk-1")
  statusSync := .exitedZero ⟨"Running", some "kiosk-1"⟩
  aptUpdate := .exited 0
  upgradeQuery := .completed 0 "Listing... Done"
  aptInstall := .exited 0
  restartGetty := .exited 0

/-- C5: when the upgrade check returns `false`, the run exits 0 and the
install command is never invoked. -/
theorem C5_no_upgrade_noop (env : MainEnv)
    (hnet : check_network env.netProbe = true)
    (hupd : run_command env.aptUpdate = true)
    (hchk : check_for_upgrade env.upgradeQuery = false) :
    (main env).1 = 0 ∧ Event.pkexecAptInstallUpgrade ∉ (main env).2 := by
  refine ⟨by simp [main, hnet, hupd, hchk], ?_⟩
  intro hmem
  simp only [main, hnet, hupd, hchk] at hmem
  simp at hmem
  rcases mem_overlayTrace env _ hmem with h1 | h1 | ⟨hn, h1⟩ <;> simp_all

/-- C5 witness: instantiated at `envC5`. -/
theorem C5_witness :
    check_network envC5.netProbe = true ∧
    run_command envC5.aptUpdate = true ∧
    check_for_upgrade envC5.upgradeQuery = false ∧
    ((main envC5).1 = 0 ∧ Event.pkexecAptInstallUpgrade ∉ (main envC5).2) :=
  ⟨rfl, rfl, by decide, C5_no_upgrade_noop envC5 rfl rfl (by decide)⟩

/-- Store state for claim C7: the store holds identity KIOSK-42. -/
def dbC7 : DBState := .table (some "KIOSK-42")

/-- Remote status for claim C7: connected, advertising the stale hostname
old-host; unchanged across both invocations (the login attempt failed to
change anything, e.g. it was rejected). -/
def statusC7 : StatusOutcome := .exitedZero ⟨"Running", some "old-host"⟩

/-- C7 counterexample: with the store and the remote status unchanged
between two consecutive invocations but the advertised hostname differing
from the stored identity, the second invocation of `sync_tailscale_hostname`
issues a login call again — it does not no-op. -/
theorem C7_counterexample :
    (syncTwice dbC7 statusC7).2 = [Event.tailscaleUp (some "KIOSK-42")] ∧
    (syncTwice dbC7 statusC7).2 ≠ [] := by
  decide

/-- Store state for the C7 witness: identity kiosk-7. -/
def dbC7w : DBState := .table (some "kiosk-7")

/-- Remote status for the C7 witness: already advertising kiosk-7. -/
def statusC7w : StatusOutcome := .exitedZero ⟨"Running", some "kiosk-7"⟩

/-- C7 amended: with store state and remote status unchanged between two
consecutive invocations, and additionally the current advertised hostname
equal to the stored identity or the identity absent (the condition under
which the first invocation already no-ops), neither invocation — in
particular not the second — issues a login call.  (When the first invocation
does issue a login and the status nevertheless stays unchanged, the second
issues one again, as the counterexample shows.) -/
theorem C7_amended (db : DBState) (statusQ : StatusOutcome)
    (h : get_license_key db = none ∨
      get_current_tailscale_hostname (get_tailscale_status statusQ) =
        get_license_key db) :
    syncTwice db statusQ = ([], []) := by
  unfold syncTwice sync_tailscale_hostname
  rcases h with h | h
  · simp [h]
  · cases hk : get_license_key db with
    | none => simp
    | some key => rw [hk] at h; simp [h]

/-- C7 witness: the amended claim instantiated at a store holding kiosk-7
with the remote already advertising kiosk-7. -/
theorem C7_witness :
    (get_license_key dbC7w = none ∨
      get_current_tailscale_hostname (get_tailscale_status statusC7w) =
        get_license_key dbC7w) ∧
    syncTwice dbC7w statusC7w = ([], []) :=
  ⟨Or.inr (by decide), C7_amended dbC7w statusC7w (Or.inr (by decide))⟩

/-- Concrete environment for claim C10: network up, refresh succeeds, the
upgrade query itself raises (e.g. times out). -/
def envC10 : MainEnv where
  netProbe := .connected
  versionProbe1 := .ok "1.60.0"
  installOutcome := .exited 0
  versionProbe2 := .ok "1.60.0"
  operatorOutcome := .exited 0
  statusConn := .exitedZero ⟨"Running", some "kiosk-1"⟩
  dbConn := .table (some "kiosk-1")
  loginConn := .exited 0
  statusConnRetry := .exitedZero ⟨"Running", some "kiosk-1"⟩
  dbSync := .table (some "kiosk-1")
  statusSync := .exitedZero ⟨"Running", some "kiosk-1"⟩
  aptUpdate := .exited 0
  upgradeQuery := .raised
  aptInstall := .exited 0
  restartGetty := .exited 0

/-- C10: `check_for_upgrade` never inspects the exit status of the listing
query (its value depends only on the stdout text), any exception — timeout
included — makes it return `false`, and consequently a run in which the
upgrade check itself fails exits 0, indistinguishable at the exit code from
a genuine no-upgrade run. -/
theorem C10_check_failure_exits_zero :
    (∀ c c2 : Nat, ∀ out : String,
      check_for_upgrade (.completed c out) = check_for_upgrade (.completed c2 out)) ∧
    check_for_upgrade .timedOut = false ∧
    check_for_upgrade .raised = false ∧
    (∀ env : MainEnv, check_network env.netProbe = true →
      run_command env.aptUpdate = true →
      env.upgradeQuery = .raised →
      (main env).1 = 0) := by
  refine ⟨fun c c2 out => rfl, rfl, rfl, fun env hnet hupd hq => ?_⟩
  simp [main, hnet, hupd, hq, check_for_upgrade]

/-- C10 witness: instantiated at `envC10`, whose upgrade query raises. -/
theorem C10_witness :
    check_network envC10.netProbe = true ∧
    run_command envC10.aptUpdate = true ∧
    envC10.upgradeQuery = .raised ∧
    (main envC10).1 = 0 :=
  ⟨rfl, rfl, rfl,
    C10_check_failure_exits_zero.2.2.2 envC10 rfl rfl rfl⟩

end RadiantWave
